import Mathlib

/-!
Verification of the MongoDB-backed object store and refs container
(src/mongo.py) against its specification.

Modelling conventions:
  - A stored document is a Doc; the objects collection is a Db, a list of
    documents in insertion order.
  - Version-control objects (dulwich ShaFile values) are Obj records holding
    the content-hash id (a 40-hex string, kept abstract here), the numeric
    type tag, and the raw serialized payload as a byte list.  The external
    object-model boundary of the spec supplies serialize and deserialize:
    str(obj) is as_raw_string, i.e. the raw payload, and
    ShaFile.from_raw_string(type, data, id) rebuilds an Obj from those
    fields.
  - Python failures are values of PyErr; a store operation that can raise
    returns Except PyErr, and a mutating operation returns the new Db
    together with an optional error (the database state that survives the
    failure is kept, matching driver semantics for ordered inserts).
  - pymongo semantics used by the embedding, checked against the driver:
    a Collection has find_one, find and insert, but no findOne; an unknown
    attribute such as findOne resolves (via Collection.__getattr__) to a
    sub-collection object, and calling that object raises
    TypeError("Collection object is not callable").  insert with a document
    whose _id already exists raises DuplicateKeyError (acknowledged writes
    are the default for MongoClient).  insert with an empty document list
    raises InvalidOperation("cannot do an empty bulk insert").  An ordered
    bulk insert stops at the first duplicate and keeps the documents
    inserted before it.
-/

/-- Kinds of Python exception observable through the public operations of
src/mongo.py, as values. -/
inductive PyErr where
  /-- NameError: the function body refers to a name with no binding in
  scope (carrying the offending name). -/
  | nameError (n : String)
  /-- TypeError raised by pymongo when a Collection object obtained from
  __getattr__ is called as if it were a method. -/
  | typeError (msg : String)
  /-- AttributeError: an instance attribute read before any assignment
  (carrying the attribute name). -/
  | attributeError (n : String)
  /-- pymongo DuplicateKeyError on inserting an _id that already exists. -/
  | duplicateKeyError
  /-- pymongo InvalidOperation (carrying the driver message). -/
  | invalidOperation (msg : String)
  /-- A Python SyntaxError: the module source fails to compile, so the
  function can never run.  Raised at import time. -/
  | compileError
  /-- KeyError on a missing key (carrying the key). -/
  | keyError (k : String)
  deriving Repr, DecidableEq

/-- One document of the objects collection:
\x7b _id: content-hash string, type: numeric type tag, data: raw bytes \x7d. -/
structure Doc where
  id : String
  type : Nat
  data : List Nat
  deriving Repr, DecidableEq

/-- The objects collection, in insertion order. -/
abbrev Db := List Doc

/-- A dulwich object (ShaFile) as seen through the external object-model
boundary: content-hash id, numeric type tag (type_num), and the raw
serialized payload (as_raw_string, which is also what str(obj) returns in
the dulwich of this codebase). -/
structure Obj where
  id : String
  type_num : Nat
  raw : List Nat
  deriving Repr, DecidableEq

/-- find_one filtered on _id: the first document whose _id equals the key
(_id values are unique in the collection, so first is the only one). -/
def findOneById (db : Db) (i : String) : Option Doc :=
  List.find? (fun d => d.id == i) db

/-- pymongo Collection.insert with a single document: if a document with the
same _id exists the driver raises DuplicateKeyError and the collection is
unchanged; otherwise the document is appended. -/
def insertOneDoc (db : Db) (d : Doc) : Db × Option PyErr :=
  if (findOneById db d.id).isSome then
    (db, some PyErr.duplicateKeyError)
  else
    (db ++ [d], none)

/-- Ordered bulk insert: documents are inserted left to right and the run
stops at the first duplicate _id, keeping what was inserted before it. -/
def insertManyGo : Db → List Doc → Db × Option PyErr
  | db, [] => (db, none)
  | db, d :: ds =>
    match insertOneDoc db d with
    | (db2, none) => insertManyGo db2 ds
    | (db2, some e) => (db2, some e)

/-- pymongo Collection.insert with a list of documents: an empty list raises
InvalidOperation("cannot do an empty bulk insert"); otherwise an ordered
bulk insert runs. -/
def insertManyDocs (db : Db) (ds : List Doc) : Db × Option PyErr :=
  if ds.isEmpty then
    (db, some (PyErr.invalidOperation "cannot do an empty bulk insert"))
  else
    insertManyGo db ds

/-- MemoryObjectStore._to_hexsha of the base class: the identity on 40-hex
strings (ids are modelled in 40-hex form throughout). -/
def toHexSha (s : String) : String := s

/-- The call self.db[self.coll].findOne(...) appearing in __getitem__,
get_raw and contains_loose (src/mongo.py lines 64, 90, 103): pymongo
Collection has find_one but no findOne, so the attribute resolves via
Collection.__getattr__ to a sub-collection object named
objects.findOne, and calling it raises
TypeError("Collection object is not callable").  The filter argument is
received here for fidelity to the call site but the call never consults the
collection. -/
def findOneCall (_db : Db) (_i : String) : Except PyErr (Option Doc) :=
  Except.error (PyErr.typeError "Collection object is not callable")

/-- Evaluation of the bare name sha inside __getitem__ and get_raw
(src/mongo.py lines 64 and 90): both functions take a parameter called
name, and no binding for sha is in scope, so the expression
self._to_hexsha(sha) raises NameError for sha.  Argument evaluation
precedes the call, so this fires before the findOne call could raise. -/
def pyLookupSha : Except PyErr String :=
  Except.error (PyErr.nameError "sha")

/-- MongoObjectStore._data_to_obj (src/mongo.py lines 70-80): hands the
stored type, data and _id fields to ShaFile.from_raw_string, the external
deserializer, which rebuilds the object from exactly those fields. -/
def dataToObj (e : Doc) : Obj :=
  { id := e.id, type_num := e.type, raw := e.data }

/-- MongoObjectStore.__iter__ (src/mongo.py lines 54-60): a fresh
find(\x7b\x7d, \x7b _id: True \x7d) query projecting the _id of every stored
document; the spec calls this operation all_ids. -/
def allIds (db : Db) : List String :=
  db.map (fun d => d.id)

/-- MongoObjectStore.__getitem__ (src/mongo.py lines 62-68), the spec
operation get(id).  The body is
entry = self.db[self.coll].findOne(\x7b _id: self._to_hexsha(sha) \x7d),
then a KeyError on a missing entry, else _data_to_obj(entry).  The
parameter is name but the body evaluates sha, so every call raises
NameError before anything else happens; the remaining lines are embedded
for fidelity but are unreachable. -/
def getItem (db : Db) (name : String) : Except PyErr Obj := do
  let sha ← pyLookupSha
  let entry ← findOneCall db (toHexSha sha)
  match entry with
  | none => Except.error (PyErr.keyError name)
  | some e => pure (dataToObj e)

/-- MongoObjectStore.get_raw (src/mongo.py lines 82-94), the spec operation
get_raw(id): same findOne lookup, returning (None, None) on a miss and the
stored (type, data) pair otherwise.  Like __getitem__ it evaluates the
undefined name sha, so every call raises NameError; the remaining lines are
embedded for fidelity but are unreachable. -/
def getRaw (db : Db) (name : String) : Except PyErr (Option Nat × Option (List Nat)) := do
  let sha ← pyLookupSha
  let entry ← findOneCall db (toHexSha sha)
  match entry with
  | none => pure (none, none)
  | some e => pure (some e.type, some e.data)

/-- MongoObjectStore.contains_loose (src/mongo.py lines 96-104), which
backs the spec operation contains(id): bool(findOne on _id).  Here the
parameter really is called sha, so the filter argument evaluates fine, but
the findOne call itself raises TypeError (no such pymongo method). -/
def containsLoose (db : Db) (sha : String) : Except PyErr Bool := do
  let entry ← findOneCall db (toHexSha sha)
  pure entry.isSome

/-- The document built by add_object and add_objects for one object
(src/mongo.py lines 111-115 and 122-126):
\x7b _id: obj.id, type: obj.type_num, data: str(obj) \x7d, where str(obj)
is the raw serialized payload. -/
def objDoc (obj : Obj) : Doc :=
  { id := obj.id, type := obj.type_num, data := obj.raw }

/-- MongoObjectStore.add_object (src/mongo.py lines 106-115): one
Collection.insert call with the document for obj. -/
def addObject (db : Db) (obj : Obj) : Db × Option PyErr :=
  insertOneDoc db (objDoc obj)

/-- A database call issued by a store operation (for counting how many
driver calls an operation makes). -/
inductive DbOp where
  /-- One Collection.insert call carrying a list of documents. -/
  | insertManyOp (docs : List Doc)
  deriving Repr, DecidableEq

/-- Result of a bulk store operation: the collection afterwards, the error
raised if any, and the list of driver calls issued. -/
structure StoreResult where
  db : Db
  err : Option PyErr
  ops : List DbOp
  deriving Repr, DecidableEq

/-- MongoObjectStore.add_objects (src/mongo.py lines 117-128): the argument
is an iterable of (object, path) pairs — the comprehension destructures
for obj, path in objects — and the built documents use only the object
component.  The whole document list is passed to a single
Collection.insert call. -/
def addObjects (db : Db) (objects : List (Obj × String)) : StoreResult :=
  let docs := objects.map (fun p => objDoc p.1)
  let r := insertManyDocs db docs
  { db := r.1, err := r.2, ops := [DbOp.insertManyOp docs] }

/-- The in-memory sink handed out by add_pack (src/mongo.py line 138):
f = BytesIO(), an empty byte buffer. -/
structure PackSink where
  buf : List Nat
  deriving Repr, DecidableEq

/-- begin_pack_ingest returns a fresh empty sink (src/mongo.py line 138). -/
def beginPackIngest : PackSink :=
  { buf := [] }

/-- Writing bytes to the sink appends them to the buffer; no database state
is touched. -/
def sinkWrite (s : PackSink) (bs : List Nat) : PackSink :=
  { buf := s.buf ++ bs }

/-- add_pack.commit (src/mongo.py lines 140-145).  Line 143-145 reads
self.add_objects( for obj in PackInflater.for_pack_data(p, self.get_raw) ):
this is not valid Python — the generator expression lacks its element
expression — so compiling the module raises SyntaxError and commit can
never execute; the PackData parse on line 141 and the add_objects call are
unreachable.  Modelled as failing at once with the collection untouched,
for every buffer content. -/
def commitPack (db : Db) (_buf : List Nat) : Db × Option PyErr :=
  (db, some PyErr.compileError)

/-- add_pack.abort (src/mongo.py lines 147-148): the body is pass; nothing
is parsed or persisted and the collection is returned unchanged. -/
def abortPack (db : Db) (_s : PackSink) : Db :=
  db

/-- State of a MongoRefsContainer instance (src/mongo.py lines 153-166).
Its __init__ sets coll and db but never calls the DictRefsContainer
initializer, so the _refs dictionary that every inherited method operates
on is absent; refsAttr models that attribute, none meaning never assigned.
No method of the class touches the Mongo database. -/
structure MongoRefs where
  coll : String
  db : Db
  refsAttr : Option (List (String × String))
  deriving Repr, DecidableEq

/-- MongoRefsContainer.__init__ (src/mongo.py lines 159-166): stores the
collection name and the database handle; the base initializer is not
called, so _refs stays unassigned. -/
def mongoRefsInit (db : Db) : MongoRefs :=
  { coll := "refs", db := db, refsAttr := none }

/-- Reading self._refs inside an inherited DictRefsContainer method: raises
AttributeError when the attribute was never assigned. -/
def refsAttrGet (s : MongoRefs) : Except PyErr (List (String × String)) :=
  match s.refsAttr with
  | none => Except.error (PyErr.attributeError "_refs")
  | some r => pure r

/-- The inherited set operation (DictRefsContainer.set_if_equals reached
through RefsContainer.__setitem__ with no expected old value): reads
self._refs first, then stores name -> target unconditionally. -/
def refSet (s : MongoRefs) (name target : String) : Except PyErr MongoRefs := do
  let r ← refsAttrGet s
  pure { s with refsAttr := some ((name, target) :: r.filter (fun p => p.1 != name)) }

/-- The inherited get operation (DictRefsContainer.read_loose_ref reached
through RefsContainer.__getitem__): reads self._refs first, then looks the
name up, raising KeyError on a miss. -/
def refGet (s : MongoRefs) (name : String) : Except PyErr String := do
  let r ← refsAttrGet s
  match List.find? (fun p => p.1 == name) r with
  | none => Except.error (PyErr.keyError name)
  | some p => pure p.2

/-- The inherited remove operation (DictRefsContainer.remove_if_equals
reached through RefsContainer.__delitem__): reads self._refs first, then
deletes the binding. -/
def refRemove (s : MongoRefs) (name : String) : Except PyErr MongoRefs := do
  let r ← refsAttrGet s
  pure { s with refsAttr := some (r.filter (fun p => p.1 != name)) }

/-- A sample blob object (payload "base"). -/
def oA : Obj := { id := "aa11", type_num := 3, raw := [98, 97, 115, 101] }

/-- A second sample blob object. -/
def oB : Obj := { id := "bb22", type_num := 3, raw := [100, 101, 108, 116, 97] }

/-- A third sample object, a commit record. -/
def oC : Obj := { id := "cc33", type_num := 1, raw := [116, 114, 101, 101] }

/-- Arbitrary bytes standing for a pack stream holding a full object A and
a delta entry B against A.  Its content is irrelevant to commit, whose body
never compiles. -/
def packAB : List Nat := [80, 65, 67, 75, 0, 0, 0, 2]

/-- Claim C1 (code bug): ingesting a pack stream holding a full object A
and a delta entry B against A cannot succeed: the body of add_pack.commit
does not compile (SyntaxError in the generator expression on line 144 of
src/mongo.py), so writing the stream to the sink and calling commit raises
instead of persisting, the collection stays empty, and contains can never
become true for A.id or B.id. -/
theorem C1_pack_commit_never_runs :
    commitPack [] (sinkWrite beginPackIngest packAB).buf
      = ([], some PyErr.compileError)
    ∧ allIds (commitPack [] (sinkWrite beginPackIngest packAB).buf).1 = [] :=
  ⟨rfl, rfl⟩

/-- Claim C2 (code bug): when commit on a pack-ingest sink fails it does
not fail with CorruptPackError or DanglingDeltaError — no such types
appear anywhere in the source — but with the SyntaxError from the
uncompilable commit body; this happens for every buffer, shown here on a
malformed one-byte stream over a non-empty store.  The no-document-inserted
half holds vacuously: the collection is returned unchanged. -/
theorem C2_commit_error_is_untyped :
    commitPack [objDoc oA] [0] = ([objDoc oA], some PyErr.compileError)
    ∧ allIds (commitPack [objDoc oA] [0]).1 = allIds [objDoc oA] :=
  ⟨rfl, rfl⟩

/-- Claim C3 (code bug): add_object is not idempotent.  The first insert of
oA succeeds, but the second insert of the same _id raises
DuplicateKeyError from the driver instead of having no observable effect
(the stored state itself is unchanged by the failed insert). -/
theorem C3_second_insert_raises :
    (addObject [] oA).2 = none
    ∧ (addObject (addObject [] oA).1 oA).2 = some PyErr.duplicateKeyError
    ∧ (addObject (addObject [] oA).1 oA).1 = (addObject [] oA).1 := by
  refine ⟨rfl, ?_, ?_⟩ <;> simp [addObject, insertOneDoc, findOneById, objDoc, oA]

/-- Claim C4 (code bug): the round trip fails.  add_object(oB) succeeds,
but get(oB.id) does not return the object: the __getitem__ body evaluates
the undefined name sha (its parameter is name), so the lookup raises
NameError instead of reaching the stored document and the deserializer. -/
theorem C4_roundtrip_get_raises :
    (addObject [] oB).2 = none
    ∧ getItem (addObject [] oB).1 oB.id = Except.error (PyErr.nameError "sha") :=
  ⟨rfl, rfl⟩

/-- Claim C5 (code bug): miss semantics do not hold on an id never
inserted.  contains raises TypeError (the code calls findOne, a method
pymongo does not have) instead of returning false; get raises NameError
(undefined name sha) instead of a not-found error; get_raw raises the same
NameError instead of returning the (None, None) sentinel. -/
theorem C5_miss_operations_raise :
    containsLoose [] "deadbeef" = Except.error (PyErr.typeError "Collection object is not callable")
    ∧ getItem [] "deadbeef" = Except.error (PyErr.nameError "sha")
    ∧ getRaw [] "deadbeef" = Except.error (PyErr.nameError "sha") :=
  ⟨rfl, rfl, rfl⟩

/-- Claim C6 (confirmed): writing any byte sequence to the sink returned by
begin_pack_ingest and then calling abort persists nothing: abort has an
empty body, the sink is a pure in-memory buffer, and all_ids over the
collection is exactly what it was before the sink was opened. -/
theorem C6_abort_discards (db : Db) (bs : List Nat) :
    allIds (abortPack db (sinkWrite beginPackIngest bs)) = allIds db :=
  rfl

/-- Claim C7, counterexample: add_objects on an empty iterable is not a
no-op — the single Collection.insert call is still issued with an empty
document list and the driver raises
InvalidOperation("cannot do an empty bulk insert"). -/
theorem C7_empty_batch_raises :
    (addObjects [] []).err = some (PyErr.invalidOperation "cannot do an empty bulk insert")
    ∧ (addObjects [] []).err ≠ none := by
  refine ⟨rfl, ?_⟩
  simp [addObjects, insertManyDocs]

/-- Claim C7 as amended (corrected): add_objects issues exactly one
underlying bulk-insert call carrying the documents of its argument, and on
an empty iterable that call fails with the driver error for an empty bulk
insert, leaving the stored state unchanged. -/
theorem C7_single_bulk_call (db : Db) (objects : List (Obj × String)) :
    (addObjects db objects).ops = [DbOp.insertManyOp (objects.map (fun p => objDoc p.1))]
    ∧ (addObjects db []).db = db
    ∧ (addObjects db []).err = some (PyErr.invalidOperation "cannot do an empty bulk insert") :=
  ⟨rfl, rfl, rfl⟩

/-- Claim C8 (code bug): on the refs container, set, get and remove all
raise AttributeError on first use: MongoRefsContainer.__init__ never calls
the DictRefsContainer initializer, so the _refs dictionary every inherited
method reads is absent — no last-writer-wins behavior, and no ref is ever
stored in the database. -/
theorem C8_refs_methods_raise :
    refSet (mongoRefsInit []) "main" "aa11" = Except.error (PyErr.attributeError "_refs")
    ∧ refGet (mongoRefsInit []) "main" = Except.error (PyErr.attributeError "_refs")
    ∧ refRemove (mongoRefsInit []) "main" = Except.error (PyErr.attributeError "_refs") :=
  ⟨rfl, rfl, rfl⟩

/-- Claim C9 (confirmed): after inserting three objects with pairwise
distinct ids into an empty store (each insert succeeding), all_ids yields a
sequence whose set of elements is exactly the set of the three ids.  The
enumeration is a fresh query over the current collection — a pure function
of the stored state, with nothing cached. -/
theorem C9_enumeration_complete (a b c : Obj)
    (hab : a.id ≠ b.id) (hac : a.id ≠ c.id) (hbc : b.id ≠ c.id) :
    (addObject [] a).2 = none
    ∧ (addObject (addObject [] a).1 b).2 = none
    ∧ (addObject (addObject (addObject [] a).1 b).1 c).2 = none
    ∧ (allIds (addObject (addObject (addObject [] a).1 b).1 c).1).toFinset
        = ({a.id, b.id, c.id} : Finset String) := by
  have h1 : (a.id == b.id) = false := beq_eq_false_iff_ne.mpr hab
  have h2 : (a.id == c.id) = false := beq_eq_false_iff_ne.mpr hac
  have h3 : (b.id == c.id) = false := beq_eq_false_iff_ne.mpr hbc
  refine ⟨rfl, ?_, ?_, ?_⟩ <;>
    simp [addObject, insertOneDoc, findOneById, objDoc, allIds, List.find?, h1, h2, h3]

/-- Witness for C9 at the concrete objects oA, oB, oC. -/
theorem C9_enumeration_complete_witness :
    (oA.id ≠ oB.id ∧ oA.id ≠ oC.id ∧ oB.id ≠ oC.id)
    ∧ ((addObject [] oA).2 = none
       ∧ (addObject (addObject [] oA).1 oB).2 = none
       ∧ (addObject (addObject (addObject [] oA).1 oB).1 oC).2 = none
       ∧ (allIds (addObject (addObject (addObject [] oA).1 oB).1 oC).1).toFinset
           = ({oA.id, oB.id, oC.id} : Finset String)) :=
  ⟨⟨by decide, by decide, by decide⟩,
   C9_enumeration_complete oA oB oC (by decide) (by decide) (by decide)⟩

/-- Claim C10 (confirmed): add_objects destructures each element of its
argument as an (object, path) pair, and its result — stored documents,
error, and issued driver calls — depends only on the object components:
two argument lists with the same objects and arbitrary paths produce
identical results. -/
theorem C10_paths_never_matter (db : Db) (l l2 : List (Obj × String))
    (h : l.map Prod.fst = l2.map Prod.fst) :
    addObjects db l = addObjects db l2 := by
  have hd : l.map (fun p => objDoc p.1) = l2.map (fun p => objDoc p.1) := by
    have e1 : l.map (fun p => objDoc p.1) = (l.map Prod.fst).map objDoc := by
      simp [List.map_map]
    have e2 : l2.map (fun p => objDoc p.1) = (l2.map Prod.fst).map objDoc := by
      simp [List.map_map]
    rw [e1, e2, h]
  simp [addObjects, hd]

/-- Witness for C10: the same object under two different paths. -/
theorem C10_paths_never_matter_witness :
    ([(oA, "x")].map Prod.fst = [(oA, "y")].map Prod.fst)
    ∧ addObjects [] [(oA, "x")] = addObjects [] [(oA, "y")] :=
  ⟨rfl, C10_paths_never_matter [] [(oA, "x")] [(oA, "y")] rfl⟩
